import Mathlib

/-!
# Verification of the reminder-bot core (recurrence expansion, planning, bucketing, reconcile)

Shallow embedding of the scheduling core of `src/main.py`:

* `generate_recurring_instances` (main.py:668-722) — recurrence expansion;
* the urgency bucketing loop of `send_daily_update` (main.py:580-602);
* the digest embed composition of `send_daily_update` (main.py:612-652);
* the reminder planning and job-table reconciliation of
  `schedule_reminders_and_updates` (main.py:730-812).

Conventions of the embedding:

* Python `datetime` values are naive local timestamps; they are modelled by
  `DateTime` (year/month/day/hour/minute, seconds and microseconds are never
  produced nor inspected by this code and are dropped).  Python's `datetime`
  comparison is lexicographic on the fields, modelled by `DateTime.key`.
* `datetime.fromisoformat` with its surrounding `try/except` is abstracted:
  an item's `due_date` field is `Option DateTime`, `none` standing for a
  missing or unparseable string (the code's `if not due_str` / `except`
  paths), `some d` for a string that parses to `d`.
* `timedelta(days=n)` is `DateTime.addDays n`; `timedelta(weeks=1)` is
  `addDays 7`; `relativedelta(months=1)` is `DateTime.addMonths1` (advance
  the month, clamp the day to the target month's length, keep the time);
  `timedelta(minutes=30)` subtraction is `DateTime.subMinutes30`.
* `.date()` is `DateTime.toDate`; subtraction of two `date`s yielding
  `.days` is the difference of proleptic-Gregorian day numbers
  (`Date.toDayNumber`).
-/

/-- Naive local timestamp, as Python's timezone-naive `datetime`
(seconds/microseconds omitted: the scheduling core never sets or reads them). -/
structure DateTime where
  year : Nat
  month : Nat
  day : Nat
  hour : Nat
  minute : Nat
deriving DecidableEq, Repr

namespace DateTime

/-- Lexicographic key: for in-range field values this agrees with Python's
field-lexicographic `datetime` comparison. -/
def key (d : DateTime) : Nat :=
  ((((d.year * 13 + d.month) * 32 + d.day) * 24 + d.hour) * 60 + d.minute)

instance : LT DateTime := ⟨fun a b => a.key < b.key⟩
instance : LE DateTime := ⟨fun a b => a.key ≤ b.key⟩

instance (a b : DateTime) : Decidable (a < b) :=
  inferInstanceAs (Decidable (a.key < b.key))
instance (a b : DateTime) : Decidable (a ≤ b) :=
  inferInstanceAs (Decidable (a.key ≤ b.key))

theorem lt_def (a b : DateTime) : (a < b) = (a.key < b.key) := rfl
theorem le_def (a b : DateTime) : (a ≤ b) = (a.key ≤ b.key) := rfl

end DateTime

/-- Gregorian leap year, as Python's `calendar.isleap` / `dateutil` use it. -/
def isLeap (y : Nat) : Bool :=
  (y % 4 == 0 && y % 100 != 0) || y % 400 == 0

/-- Number of days in month `m` of year `y` (months numbered 1..12). -/
def daysInMonth (y m : Nat) : Nat :=
  if m = 2 then (if isLeap y then 29 else 28)
  else if m = 4 ∨ m = 6 ∨ m = 9 ∨ m = 11 then 30
  else 31

/-- A calendar-valid timestamp (what any value produced by Python's
`datetime` constructor satisfies). -/
def ValidDT (d : DateTime) : Prop :=
  1 ≤ d.year ∧ 1 ≤ d.month ∧ d.month ≤ 12 ∧ 1 ≤ d.day ∧
    d.day ≤ daysInMonth d.year d.month ∧ d.hour < 24 ∧ d.minute < 60

instance (d : DateTime) : Decidable (ValidDT d) := by
  unfold ValidDT; infer_instance

namespace DateTime

/-- One calendar day forward, rolling over month and year ends. -/
def addOneDay (d : DateTime) : DateTime :=
  if d.day < daysInMonth d.year d.month then
    { d with day := d.day + 1 }
  else if d.month < 12 then
    { d with month := d.month + 1, day := 1 }
  else
    { d with year := d.year + 1, month := 1, day := 1 }

/-- `d + timedelta(days=n)`: `n` calendar days forward, time of day kept. -/
def addDays (n : Nat) (d : DateTime) : DateTime :=
  match n with
  | 0 => d
  | n + 1 => addOneDay (addDays n d)

/-- `d + relativedelta(months=1)`: advance the month (rolling the year),
clamp the day-of-month to the target month's length, keep the time of day.
`dateutil`'s relativedelta never overflows into the following month. -/
def addMonths1 (d : DateTime) : DateTime :=
  let y := if d.month = 12 then d.year + 1 else d.year
  let m := if d.month = 12 then 1 else d.month + 1
  { d with year := y, month := m, day := min d.day (daysInMonth y m) }

/-- One calendar day backward, rolling over month and year starts. -/
def prevDay (d : DateTime) : DateTime :=
  if 1 < d.day then
    { d with day := d.day - 1 }
  else if 1 < d.month then
    { d with month := d.month - 1, day := daysInMonth d.year (d.month - 1) }
  else
    { d with year := d.year - 1, month := 12, day := 31 }

/-- `d - timedelta(minutes=30)`, borrowing through hour and day. -/
def subMinutes30 (d : DateTime) : DateTime :=
  if 30 ≤ d.minute then
    { d with minute := d.minute - 30 }
  else if 1 ≤ d.hour then
    { d with hour := d.hour - 1, minute := d.minute + 30 }
  else
    { prevDay d with hour := 23, minute := d.minute + 30 }

end DateTime

/-- Calendar date (Python `datetime.date`). -/
structure Date where
  year : Nat
  month : Nat
  day : Nat
deriving DecidableEq, Repr

/-- `.date()`: drop the time of day. -/
def DateTime.toDate (d : DateTime) : Date :=
  ⟨d.year, d.month, d.day⟩

/-- Days of year `y` that precede month `m`. -/
def daysBeforeMonth (y m : Nat) : Nat :=
  match m with
  | 0 => 0
  | m + 1 => daysBeforeMonth y m + (if 1 ≤ m then daysInMonth y m else 0)

/-- Proleptic-Gregorian day number (day 1 = 0001-01-01); differences of day
numbers model Python's `(date1 - date2).days`. -/
def Date.toDayNumber (d : Date) : Nat :=
  365 * (d.year - 1) + (d.year - 1) / 4 - (d.year - 1) / 100 + (d.year - 1) / 400
    + daysBeforeMonth d.year d.month + d.day

/-- Python `date` ordering (lexicographic on the fields; for valid dates this
agrees with day-number order). -/
def Date.key (d : Date) : Nat := (d.year * 13 + d.month) * 32 + d.day

instance : LT Date := ⟨fun a b => a.key < b.key⟩
instance (a b : Date) : Decidable (a < b) :=
  inferInstanceAs (Decidable (a.key < b.key))

/-!
## Items

An item as returned by `database.fetch_items` (database.py:129-160), restricted
to the fields the scheduling core reads, plus the two fields
`generate_recurring_instances` adds to the copies it emits.
-/

structure Item where
  id : String
  type : String
  name : String
  /-- `none` models a missing or unparseable `due_date` string. -/
  due_date : Option DateTime
  status : String
  mention : String
  repeat_interval : String
  priority : String
  notes : String
  is_recurring_instance : Bool := false
  original_id : String := ""
deriving DecidableEq, Repr

/-!
## RecurrenceExpander: `generate_recurring_instances` (main.py:668-722)
-/

/-- The instance dict built inside the loop body (main.py:702-707). -/
def mkInstance (item : Item) (current : DateTime) (count : Nat) : Item :=
  { item with
      due_date := some current
      id := if count > 0 then item.id ++ "_recur_" ++ toString count else item.id
      is_recurring_instance := count > 0
      original_id := item.id }

/-- The step the loop takes for each `repeat_interval` (main.py:712-719);
`none` models the `else: break` branch for unrecognized values. -/
def stepDate (rep : String) (d : DateTime) : Option DateTime :=
  if rep = "daily" then some (d.addDays 1)
  else if rep = "weekly" then some (d.addDays 7)
  else if rep = "monthly" then some d.addMonths1
  else none

/-- The `while current_date <= end_date and instance_count < max_instances`
loop (main.py:700-719).  `fuel` is only an upper bound on the remaining
iterations (the loop increments `instance_count` on every iteration, so it
runs at most `100 - count` more times); the loop's own exit conditions are
kept verbatim in the body. -/
def genLoop (item : Item) (start_date end_date : DateTime) :
    Nat → DateTime → Nat → List Item
  | 0, _, _ => []
  | fuel + 1, current, count =>
    if current ≤ end_date ∧ count < 100 then
      let emitted := if start_date ≤ current then [mkInstance item current count] else []
      match stepDate item.repeat_interval current with
      | some next => emitted ++ genLoop item start_date end_date fuel next (count + 1)
      | none => emitted
    else []

/-- `generate_recurring_instances(item, start_date, end_date)` with both window
bounds supplied (the claims under scrutiny always supply them; the defaults at
main.py:675-679 only fill in `now ± …` when a bound is omitted). -/
def generate_recurring_instances (item : Item) (start_date end_date : DateTime) :
    List Item :=
  if item.repeat_interval = "none" then [item]
  else
    match item.due_date with
    | none => [item]
    | some original_date => genLoop item start_date end_date 100 original_date 0

/-- The occurrence timestamps of an expansion result, in order. -/
def occTimes (l : List Item) : List DateTime :=
  l.filterMap (·.due_date)

/-!
## UrgencyBucketer: the classification loop of `send_daily_update`
(main.py:571-601)

The loop runs once over pending tasks and once over pending events with
identical branch logic; `classify` is that branch logic for one item.  The
code has three destination lists (`overdue_*`, `today_*`, `upcoming_*`); an
item that matches no branch is appended to none of them, which `classify`
records as `dropped`.
-/

inductive Bucket where
  | overdue
  | due_today
  | upcoming
  | dropped
deriving DecidableEq, Repr

/-- One iteration of the bucketing loop: `try: parse; if < : overdue;
elif == : today; elif (diff).days <= 7 : upcoming; except: upcoming`
(main.py:579-589).  The bare `except` catches the date-parse failure and
appends to the upcoming list; an item falling through every branch is
appended nowhere (`dropped`). -/
def classify (today : DateTime) (i : Item) : Bucket :=
  match i.due_date with
  | none => Bucket.upcoming
  | some due =>
    if due.toDate < today.toDate then Bucket.overdue
    else if due.toDate = today.toDate then Bucket.due_today
    else if (due.toDate.toDayNumber : Int) - today.toDate.toDayNumber ≤ 7 then
      Bucket.upcoming
    else Bucket.dropped

/-- The three lists the loop builds for one item kind, in input order
(appending to the branch's list is filtering by the branch taken). -/
def bucketize (today : DateTime) (pending : List Item) :
    List Item × List Item × List Item :=
  (pending.filter (fun i => classify today i = Bucket.overdue),
   pending.filter (fun i => classify today i = Bucket.due_today),
   pending.filter (fun i => classify today i = Bucket.upcoming))

/-!
## DigestComposer: the embed construction of `send_daily_update`
(main.py:603-652)
-/

/-- `format_time_12hour` (main.py:97-103): `strftime("%Y-%m-%d %I:%M %p")`.
On an unparseable input the code echoes the raw string; the embedding does not
retain raw strings, so the `none` case yields the empty string. -/
def format_time_12hour (d : Option DateTime) : String :=
  match d with
  | some dt =>
    let h := dt.hour % 12
    let h12 := if h = 0 then 12 else h
    let pad := fun (n : Nat) => if n < 10 then "0" ++ toString n else toString n
    toString dt.year ++ "-" ++ pad dt.month ++ "-" ++ pad dt.day ++ " " ++
      pad h12 ++ ":" ++ pad dt.minute ++ " " ++ (if dt.hour < 12 then "AM" else "PM")
  | none => ""

structure EmbedField where
  name : String
  value : String
deriving DecidableEq, Repr

/-- `for task in overdue_tasks[:5]: overdue_text += …` then the same for
events (main.py:613-617): one line per shown item, five per kind. -/
def overdueLines (overdue_tasks overdue_events : List Item) : List String :=
  (overdue_tasks.take 5).map (fun t =>
    "🔴 **" ++ t.name ++ "** (ID: " ++ t.id ++ ") - Due: " ++
      format_time_12hour t.due_date ++ " - Priority: " ++ t.priority ++ "\n")
  ++ (overdue_events.take 5).map (fun e =>
    "🔴 **" ++ e.name ++ "** (ID: " ++ e.id ++ ") - Due: " ++
      format_time_12hour e.due_date ++ " - Priority: " ++ e.priority ++ "\n")

/-- Lines of the DUE TODAY field (main.py:624-628). -/
def todayLines (today_tasks today_events : List Item) : List String :=
  (today_tasks.take 5).map (fun t =>
    "🟡 **" ++ t.name ++ "** (ID: " ++ t.id ++ ") - Priority: " ++ t.priority ++ "\n")
  ++ (today_events.take 5).map (fun e =>
    "🟡 **" ++ e.name ++ "** (ID: " ++ e.id ++ ") - Priority: " ++ e.priority ++ "\n")

/-- Lines of the UPCOMING field (main.py:635-639). -/
def upcomingLines (upcoming_tasks upcoming_events : List Item) : List String :=
  (upcoming_tasks.take 5).map (fun t =>
    "🟢 **" ++ t.name ++ "** (ID: " ++ t.id ++ ") - Due: " ++
      format_time_12hour t.due_date ++ " - Priority: " ++ t.priority ++ "\n")
  ++ (upcoming_events.take 5).map (fun e =>
    "🟢 **" ++ e.name ++ "** (ID: " ++ e.id ++ ") - Due: " ++
      format_time_12hour e.due_date ++ " - Priority: " ++ e.priority ++ "\n")

/-- One digest bucket field: built only when the bucket's task or event list
is nonempty, value truncated to 1024 characters (main.py:612-621 et al.). -/
def bucketField (name : String) (tasks events : List Item) (lines : List String) :
    List EmbedField :=
  if tasks.isEmpty && events.isEmpty then []
  else
    let text := String.join lines
    if text = "" then [] else [⟨name, text.take 1024⟩]

/-- The embed fields of the daily digest (main.py:603-648): the three bucket
fields, then the always-present summary field with its three counts. -/
def composeDigestFields (pending_tasks pending_events : List Item)
    (today : DateTime) : List EmbedField :=
  let bt := bucketize today pending_tasks
  let bev := bucketize today pending_events
  let total_pending := pending_tasks.length + pending_events.length
  let total_overdue := bt.1.length + bev.1.length
  bucketField "⚠️ OVERDUE" bt.1 bev.1 (overdueLines bt.1 bev.1)
  ++ bucketField "📅 DUE TODAY" bt.2.1 bev.2.1 (todayLines bt.2.1 bev.2.1)
  ++ bucketField "📈 UPCOMING (Next 7 Days)" bt.2.2 bev.2.2
      (upcomingLines bt.2.2 bev.2.2)
  ++ [⟨"📊 Summary",
        "Total Pending: " ++ toString total_pending ++
        "\nOverdue: " ++ toString total_overdue ++
        "\nDue Today: " ++ toString (bt.2.1.length + bev.2.1.length)⟩]

/-!
## ReminderPlanner: the per-item planning of `schedule_reminders_and_updates`
(main.py:743-791)
-/

/-- The hard-coded `USER_ID_MAP` (main.py:757-760; the source holds
placeholder entries, modelled with distinct numeric ids). -/
def USER_ID_MAP : List (String × Nat) :=
  [("Discord User Name 1", 1), ("Discord User Name 2", 2)]

/-- `int(reminder_time.timestamp())`: seconds since the Unix epoch. -/
def DateTime.timestamp (d : DateTime) : Int :=
  ((Date.toDayNumber d.toDate : Int) - Date.toDayNumber ⟨1970, 1, 1⟩) * 86400
    + d.hour * 3600 + d.minute * 60

structure PlannedJob where
  job_id : String
  fire_at : DateTime
  message : String
deriving DecidableEq, Repr

/-- The `' ' + mention_text if mention_text else ''` resolution
(main.py:766-773): empty string for no mention, `<@id>` for a mapped name,
`@name` as fallback. -/
def mentionText (mention : String) : String :=
  if mention = "" then ""
  else
    match (USER_ID_MAP.find? (fun p => p.1 = mention)).map Prod.snd with
    | some uid => "<@" ++ toString uid ++ ">"
    | none => "@" ++ mention

/-- The reminder message f-string (main.py:775-780). -/
def renderMessage (i : Item) : String :=
  let m := mentionText i.mention
  "⏰ Reminder: " ++ i.type.capitalize ++ " '" ++ i.name ++ "' due at " ++
    format_time_12hour i.due_date ++ (if m = "" then "" else " " ++ m) ++
    "\nPriority: " ++ i.priority ++
    "\nNotes: " ++ (if i.notes = "" then "No notes" else i.notes)

/-- One pass of the planning loop body for a single item
(main.py:744-791): skip non-pending, skip missing/unparseable due dates,
compute `reminder_time = due - 30m`, plan iff
`now <= reminder_time <= now + 30 days`. -/
def planReminderForItem (now : DateTime) (i : Item) : Option PlannedJob :=
  if i.status ≠ "pending" then none
  else
    match i.due_date with
    | none => none
    | some due =>
      let reminder_time := due.subMinutes30
      if now ≤ reminder_time ∧ reminder_time ≤ now.addDays 30 then
        some ⟨"reminder_" ++ i.id ++ "_" ++ toString reminder_time.timestamp,
              reminder_time, renderMessage i⟩
      else none

/-- The whole planning loop: each item contributes its planned job or
nothing, independently of the rest of the batch. -/
def plan_reminders (items : List Item) (now : DateTime) : List PlannedJob :=
  items.filterMap (planReminderForItem now)

/-!
## JobScheduler reconcile: the clear-then-re-add of
`schedule_reminders_and_updates` (main.py:735-791)
-/

structure ScheduledJob where
  id : String
  run_date : DateTime
  message : String
deriving DecidableEq, Repr

/-- Python's `str.startswith(pre)`: character-prefix test. -/
def strStartsWith (s pre : String) : Bool :=
  pre.toList.isPrefixOf s.toList

def toScheduledJob (p : PlannedJob) : ScheduledJob :=
  ⟨p.job_id, p.fire_at, p.message⟩

/-- The reconcile pass over the live job table, instrumented with the ids it
cancels and the ids it adds: first every job whose id starts with
`reminder_` is removed (main.py:736-739), then one job per planned reminder
is added (main.py:790-791).  Returns (cancelled ids, added ids, new table). -/
def reconcileJobs (table : List ScheduledJob) (plan : List PlannedJob) :
    List String × List String × List ScheduledJob :=
  let cancelled := (table.filter (fun j => strStartsWith j.id "reminder_")).map (·.id)
  let kept := table.filter (fun j => ! strStartsWith j.id "reminder_")
  let added := plan.map toScheduledJob
  (cancelled, added.map (·.id), kept ++ added)


/-!
## Calendar arithmetic lemmas
-/

theorem daysInMonth_ge (y m : Nat) : 28 ≤ daysInMonth y m := by
  unfold daysInMonth
  split_ifs <;> omega

theorem daysInMonth_le (y m : Nat) : daysInMonth y m ≤ 31 := by
  unfold daysInMonth
  split_ifs <;> omega

namespace DateTime

theorem le_of_lt {a b : DateTime} (h : a < b) : a ≤ b := Nat.le_of_lt h

theorem le_refl (a : DateTime) : a ≤ a := Nat.le_refl a.key

theorem le_trans {a b c : DateTime} (h1 : a ≤ b) (h2 : b ≤ c) : a ≤ c :=
  Nat.le_trans h1 h2

theorem lt_of_lt_of_le {a b c : DateTime} (h1 : a < b) (h2 : b ≤ c) : a < c :=
  Nat.lt_of_lt_of_le h1 h2

theorem lt_of_le_of_lt {a b c : DateTime} (h1 : a ≤ b) (h2 : b < c) : a < c :=
  Nat.lt_of_le_of_lt h1 h2

theorem not_le_of_lt {a b : DateTime} (h : a < b) : ¬ b ≤ a := Nat.not_le_of_lt h

theorem addOneDay_valid {d : DateTime} (h : ValidDT d) : ValidDT d.addOneDay := by
  obtain ⟨hy, hm1, hm2, hd1, hd2, hh, hmin⟩ := h
  have hg1 := daysInMonth_ge d.year (d.month + 1)
  have hg2 := daysInMonth_ge (d.year + 1) 1
  unfold addOneDay ValidDT
  split_ifs with h1 h2 <;> simp_all <;> omega

theorem lt_addOneDay {d : DateTime} (h : ValidDT d) : d < d.addOneDay := by
  obtain ⟨hy, hm1, hm2, hd1, hd2, hh, hmin⟩ := h
  have h31 := daysInMonth_le d.year d.month
  show d.key < d.addOneDay.key
  unfold addOneDay
  split_ifs with h1 h2 <;> simp [key] <;> omega

theorem addDays_valid {d : DateTime} (n : Nat) (h : ValidDT d) :
    ValidDT (d.addDays n) := by
  induction n with
  | zero => exact h
  | succ k ih => exact addOneDay_valid ih

theorem lt_addDays {d : DateTime} (n : Nat) (hn : 0 < n) (h : ValidDT d) :
    d < d.addDays n := by
  induction n with
  | zero => omega
  | succ k ih =>
    rcases Nat.eq_zero_or_pos k with hk | hk
    · subst hk
      exact lt_addOneDay h
    · exact Nat.lt_trans (ih hk) (lt_addOneDay (addDays_valid k h))

theorem addMonths1_valid {d : DateTime} (h : ValidDT d) : ValidDT d.addMonths1 := by
  obtain ⟨hy, hm1, hm2, hd1, hd2, hh, hmin⟩ := h
  have hg1 := daysInMonth_ge d.year (d.month + 1)
  have hg2 := daysInMonth_ge (d.year + 1) 1
  unfold addMonths1 ValidDT
  by_cases h12 : d.month = 12 <;> simp_all <;> omega

theorem lt_addMonths1 {d : DateTime} (h : ValidDT d) : d < d.addMonths1 := by
  obtain ⟨hy, hm1, hm2, hd1, hd2, hh, hmin⟩ := h
  have h31 := daysInMonth_le d.year d.month
  show d.key < d.addMonths1.key
  unfold addMonths1
  by_cases h12 : d.month = 12 <;> simp_all [key] <;> omega

end DateTime

theorem stepDate_valid {rep : String} {d e : DateTime}
    (hstep : stepDate rep d = some e) (h : ValidDT d) : ValidDT e := by
  unfold stepDate at hstep
  split_ifs at hstep <;> rw [Option.some.injEq] at hstep <;> subst hstep
  · exact DateTime.addDays_valid 1 h
  · exact DateTime.addDays_valid 7 h
  · exact DateTime.addMonths1_valid h

theorem lt_stepDate {rep : String} {d e : DateTime}
    (hstep : stepDate rep d = some e) (h : ValidDT d) : d < e := by
  unfold stepDate at hstep
  split_ifs at hstep <;> rw [Option.some.injEq] at hstep <;> subst hstep
  · exact DateTime.lt_addDays 1 (by omega) h
  · exact DateTime.lt_addDays 7 (by omega) h
  · exact DateTime.lt_addMonths1 h

/-!
## Expansion loop lemmas
-/

theorem occTimes_nil : occTimes [] = [] := rfl

theorem occTimes_append (l1 l2 : List Item) :
    occTimes (l1 ++ l2) = occTimes l1 ++ occTimes l2 :=
  List.filterMap_append l1 l2 _

theorem occTimes_mkInstance_cons (item : Item) (cur : DateTime) (cnt : Nat)
    (l : List Item) :
    occTimes (mkInstance item cur cnt :: l) = cur :: occTimes l := by
  simp [occTimes, mkInstance]

theorem genLoop_length_le (item : Item) (s e : DateTime) :
    ∀ fuel cur cnt, (genLoop item s e fuel cur cnt).length ≤ fuel := by
  intro fuel
  induction fuel with
  | zero => intro cur cnt; simp [genLoop]
  | succ n ih =>
    intro cur cnt
    simp only [genLoop]
    split
    · cases hstep : stepDate item.repeat_interval cur with
      | none => by_cases hs : s ≤ cur <;> simp [hstep, hs]
      | some next =>
        have := ih next (cnt + 1)
        by_cases hs : s ≤ cur <;> simp [hstep, hs] <;> omega
    · simp

theorem genLoop_chain (item : Item) (s e : DateTime) :
    ∀ fuel cur cnt, ValidDT cur →
      (∀ t ∈ occTimes (genLoop item s e fuel cur cnt), cur ≤ t) ∧
        List.Chain' (· < ·) (occTimes (genLoop item s e fuel cur cnt)) := by
  intro fuel
  induction fuel with
  | zero => intro cur cnt _; simp [genLoop, occTimes]
  | succ n ih =>
    intro cur cnt hv
    simp only [genLoop]
    split
    · cases hstep : stepDate item.repeat_interval cur with
      | none =>
        by_cases hs : s ≤ cur <;>
          simp [hs, occTimes_mkInstance_cons, occTimes, mkInstance, DateTime.le_refl]
      | some next =>
        have hvn : ValidDT next := stepDate_valid hstep hv
        have hlt : cur < next := lt_stepDate hstep hv
        obtain ⟨ihb, ihc⟩ := ih next (cnt + 1) hvn
        by_cases hs : s ≤ cur
        · simp only [hs, if_pos, ite_true, List.singleton_append,
            occTimes_mkInstance_cons]
          constructor
          · intro t ht
            rcases List.mem_cons.mp ht with rfl | ht
            · exact DateTime.le_refl t
            · exact DateTime.le_trans (DateTime.le_of_lt hlt) (ihb t ht)
          · refine List.chain'_cons'.mpr ⟨?_, ihc⟩
            intro y hy
            exact DateTime.lt_of_lt_of_le hlt (ihb y (List.mem_of_mem_head? hy))
        · simp only [hs, if_neg, ite_false, List.nil_append]
          refine ⟨?_, ihc⟩
          intro t ht
          exact DateTime.le_trans (DateTime.le_of_lt hlt) (ihb t ht)
    · simp [occTimes]

/-- `k`-fold application of the loop's step (a no-op for the `else: break`
repeat values, which take no step). -/
def iterStep (rep : String) (d : DateTime) : Nat → DateTime
  | 0 => d
  | n + 1 =>
    match stepDate rep (iterStep rep d n) with
    | some x => x
    | none => iterStep rep d n

theorem iterStep_valid (rep : String) {d : DateTime} (hv : ValidDT d) :
    ∀ n, ValidDT (iterStep rep d n) := by
  intro n
  induction n with
  | zero => exact hv
  | succ k ih =>
    simp only [iterStep]
    cases hstep : stepDate rep (iterStep rep d k) with
    | none => exact ih
    | some x => exact stepDate_valid hstep ih

theorem iterStep_le_succ (rep : String) {d : DateTime} (hv : ValidDT d) (n : Nat) :
    iterStep rep d n ≤ iterStep rep d (n + 1) := by
  simp only [iterStep]
  cases hstep : stepDate rep (iterStep rep d n) with
  | none => exact DateTime.le_refl _
  | some x => exact DateTime.le_of_lt (lt_stepDate hstep (iterStep_valid rep hv n))

theorem iterStep_mono (rep : String) {d : DateTime} (hv : ValidDT d)
    {j k : Nat} (hjk : j ≤ k) : iterStep rep d j ≤ iterStep rep d k := by
  induction k with
  | zero =>
    have : j = 0 := by omega
    subst this
    exact DateTime.le_refl _
  | succ m ih =>
    rcases Nat.lt_or_ge j (m + 1) with hj | hj
    · exact DateTime.le_trans (ih (by omega)) (iterStep_le_succ rep hv m)
    · have : j = m + 1 := by omega
      subst this
      exact DateTime.le_refl _

theorem iterStep_succ_front {rep : String} {d x : DateTime}
    (hstep : stepDate rep d = some x) :
    ∀ n, iterStep rep d (n + 1) = iterStep rep x n := by
  intro n
  induction n with
  | zero => simp [iterStep, hstep]
  | succ m ih =>
    conv_lhs => rw [iterStep]
    conv_rhs => rw [iterStep]
    rw [ih]

theorem genLoop_nil (item : Item) (s e : DateTime) :
    ∀ fuel cur cnt, ValidDT cur →
      (∀ j, j < fuel → iterStep item.repeat_interval cur j < s) →
      genLoop item s e fuel cur cnt = [] := by
  intro fuel
  induction fuel with
  | zero => intro cur cnt _ _; rfl
  | succ n ih =>
    intro cur cnt hv hj
    have hcur : ¬ s ≤ cur := DateTime.not_le_of_lt (hj 0 (by omega))
    simp only [genLoop]
    split
    · cases hstep : stepDate item.repeat_interval cur with
      | none => simp [hcur]
      | some next =>
        have hnext : ∀ j, j < n → iterStep item.repeat_interval next j < s := by
          intro j hjn
          rw [← iterStep_succ_front hstep]
          exact hj (j + 1) (by omega)
        simp [hcur, ih next (cnt + 1) (stepDate_valid hstep hv) hnext]
    · rfl

theorem genLoop_succ (item : Item) (s e : DateTime) (fuel : Nat)
    (cur : DateTime) (cnt : Nat) :
    genLoop item s e (fuel + 1) cur cnt =
      if cur ≤ e ∧ cnt < 100 then
        match stepDate item.repeat_interval cur with
        | some next =>
          (if s ≤ cur then [mkInstance item cur cnt] else []) ++
            genLoop item s e fuel next (cnt + 1)
        | none => if s ≤ cur then [mkInstance item cur cnt] else []
      else [] := rfl

theorem occTimes_generate_head (item : Item) (s e due : DateTime)
    (hd : item.due_date = some due) (h1 : s ≤ due) (h2 : due ≤ e) :
    (occTimes (generate_recurring_instances item s e)).head? = some due := by
  unfold generate_recurring_instances
  by_cases hrep : item.repeat_interval = "none"
  · simp [hrep, occTimes, hd]
  · rw [if_neg hrep, hd]
    dsimp only
    rw [show (100 : Nat) = 99 + 1 from rfl, genLoop_succ]
    rw [if_pos ⟨h2, by omega⟩]
    cases hstep : stepDate item.repeat_interval due with
    | none =>
      dsimp only
      rw [if_pos h1, occTimes_mkInstance_cons]
      rfl
    | some next =>
      dsimp only
      rw [if_pos h1, List.singleton_append, occTimes_mkInstance_cons]
      rfl

/-!
## Claim theorems: recurrence expansion
-/

/-- Monthly item of the spec scenario: due 2025-01-31T09:00, repeat=monthly. -/
def exMonthlyItem : Item :=
  { id := "1", type := "event", name := "m", due_date := some ⟨2025, 1, 31, 9, 0⟩,
    status := "pending", mention := "", repeat_interval := "monthly",
    priority := "Medium", notes := "" }

/-- Non-recurring item due 2025-06-15T09:00. -/
def exNoneItem : Item :=
  { id := "3", type := "task", name := "n", due_date := some ⟨2025, 6, 15, 9, 0⟩,
    status := "pending", mention := "", repeat_interval := "none",
    priority := "Low", notes := "" }

/-- Daily item due 2025-01-01T09:00. -/
def exDailyItem : Item :=
  { id := "2", type := "task", name := "d", due_date := some ⟨2025, 1, 1, 9, 0⟩,
    status := "pending", mention := "", repeat_interval := "daily",
    priority := "Low", notes := "" }

/-- Daily item due far in the past: 2020-01-01T09:00. -/
def exOldDailyItem : Item :=
  { id := "5", type := "task", name := "o", due_date := some ⟨2020, 1, 1, 9, 0⟩,
    status := "pending", mention := "", repeat_interval := "daily",
    priority := "Low", notes := "" }

/-- C6: for every item and every window, the recurrence expansion is a total
function (it terminates) and returns at most 100 occurrences. -/
theorem expand_length_le_100 (item : Item) (s e : DateTime) :
    (generate_recurring_instances item s e).length ≤ 100 := by
  unfold generate_recurring_instances
  split_ifs
  · simp
  · cases hd : item.due_date with
    | none => simp
    | some d => exact genLoop_length_le item s e 100 d 0

/-- C4 (amended): for repeat=none the expansion returns exactly the item
itself — one occurrence carrying the item's own due date — for EVERY window,
including windows that exclude the due date: the window bounds are ignored
on this path. -/
theorem expand_none_ignores_window (item : Item) (s e : DateTime)
    (h : item.repeat_interval = "none") :
    generate_recurring_instances item s e = [item] := by
  unfold generate_recurring_instances
  rw [if_pos h]

theorem expand_none_ignores_window_witness :
    generate_recurring_instances exNoneItem ⟨2025, 6, 1, 0, 0⟩ ⟨2025, 7, 1, 0, 0⟩ =
      [exNoneItem] :=
  expand_none_ignores_window exNoneItem ⟨2025, 6, 1, 0, 0⟩ ⟨2025, 7, 1, 0, 0⟩ rfl

/-- C4 counterexample: the window [2025-01-01, 2025-02-01] excludes
exNoneItem's due date 2025-06-15T09:00, yet the expansion still returns one
occurrence (the claim says it returns zero). -/
theorem expand_none_window_cex :
    (generate_recurring_instances exNoneItem ⟨2025, 1, 1, 0, 0⟩ ⟨2025, 2, 1, 0, 0⟩).length
        = 1 ∧
      exNoneItem.due_date = some ⟨2025, 6, 15, 9, 0⟩ ∧
      ¬ ((⟨2025, 1, 1, 0, 0⟩ : DateTime) ≤ ⟨2025, 6, 15, 9, 0⟩ ∧
          (⟨2025, 6, 15, 9, 0⟩ : DateTime) ≤ ⟨2025, 2, 1, 0, 0⟩) := by
  decide

/-- C2 (amended): each monthly step advances the linear month index by
exactly one and clamps the day-of-month to the target month's length (never
overflowing into the following month); however the clamp is sticky — the
next step starts from the clamped day — so the scenario item due
2025-01-31T09:00 over [2025-01-01, 2025-04-01] yields occurrences at
2025-01-31, 2025-02-28 and 2025-03-28 (not 2025-03-31). -/
theorem monthly_step_normalized_and_scenario :
    (∀ d : DateTime, ValidDT d →
      ValidDT d.addMonths1 ∧
        d.addMonths1.year * 12 + d.addMonths1.month = d.year * 12 + d.month + 1 ∧
        d.addMonths1.day =
          min d.day (daysInMonth d.addMonths1.year d.addMonths1.month)) ∧
    occTimes (generate_recurring_instances exMonthlyItem ⟨2025, 1, 1, 0, 0⟩
        ⟨2025, 4, 1, 0, 0⟩) =
      [⟨2025, 1, 31, 9, 0⟩, ⟨2025, 2, 28, 9, 0⟩, ⟨2025, 3, 28, 9, 0⟩] := by
  constructor
  · intro d hv
    refine ⟨DateTime.addMonths1_valid hv, ?_, ?_⟩
    · obtain ⟨hy, hm1, hm2, _⟩ := hv
      unfold DateTime.addMonths1
      by_cases h12 : d.month = 12 <;> simp [h12] <;> omega
    · unfold DateTime.addMonths1
      by_cases h12 : d.month = 12 <;> simp [h12]
  · decide

/-- C2 counterexample: the scenario's third occurrence is 2025-03-28, not the
2025-03-31 the claim states. -/
theorem monthly_scenario_cex :
    occTimes (generate_recurring_instances exMonthlyItem ⟨2025, 1, 1, 0, 0⟩
        ⟨2025, 4, 1, 0, 0⟩) ≠
      [⟨2025, 1, 31, 9, 0⟩, ⟨2025, 2, 28, 9, 0⟩, ⟨2025, 3, 31, 9, 0⟩] := by
  decide

theorem monthly_step_normalized_witness :
    ValidDT ⟨2025, 2, 28, 9, 0⟩ ∧
      (DateTime.addMonths1 ⟨2025, 2, 28, 9, 0⟩).year * 12 +
          (DateTime.addMonths1 ⟨2025, 2, 28, 9, 0⟩).month = 2025 * 12 + 2 + 1 :=
  ⟨by decide,
    (monthly_step_normalized_and_scenario.1 ⟨2025, 2, 28, 9, 0⟩ (by decide)).2.1⟩

/-- C7 (amended): occurrence timestamps of one expansion are strictly
increasing for every window; the first occurrence equals the item's own due
date whenever the due date itself lies inside the window — but not in
general: when the due date precedes window_start, the first emitted
occurrence is the first stepped timestamp at or after window_start. -/
theorem expand_strict_mono_and_head (item : Item) (s e due : DateTime)
    (hd : item.due_date = some due) (hv : ValidDT due) :
    List.Chain' (· < ·) (occTimes (generate_recurring_instances item s e)) ∧
      (s ≤ due → due ≤ e →
        (occTimes (generate_recurring_instances item s e)).head? = some due) := by
  constructor
  · unfold generate_recurring_instances
    split_ifs with hrep
    · simp [occTimes, hd]
    · rw [hd]
      dsimp only
      exact (genLoop_chain item s e 100 due 0 hv).2
  · intro h1 h2
    exact occTimes_generate_head item s e due hd h1 h2

/-- C7 counterexample: a daily item due 2025-01-01T09:00 expanded over the
window [2025-01-05, 2025-01-08] yields first occurrence 2025-01-05T09:00,
which is not the item's own due date. -/
theorem expand_head_cex :
    occTimes (generate_recurring_instances exDailyItem ⟨2025, 1, 5, 0, 0⟩
        ⟨2025, 1, 8, 0, 0⟩) =
      [⟨2025, 1, 5, 9, 0⟩, ⟨2025, 1, 6, 9, 0⟩, ⟨2025, 1, 7, 9, 0⟩] ∧
    exDailyItem.due_date = some ⟨2025, 1, 1, 9, 0⟩ ∧
    (occTimes (generate_recurring_instances exDailyItem ⟨2025, 1, 5, 0, 0⟩
        ⟨2025, 1, 8, 0, 0⟩)).head? ≠ some ⟨2025, 1, 1, 9, 0⟩ := by
  decide

theorem expand_strict_mono_and_head_witness :
    exDailyItem.due_date = some ⟨2025, 1, 1, 9, 0⟩ ∧ ValidDT ⟨2025, 1, 1, 9, 0⟩ ∧
      (occTimes (generate_recurring_instances exDailyItem ⟨2025, 1, 1, 0, 0⟩
          ⟨2025, 1, 3, 0, 0⟩)).head? = some ⟨2025, 1, 1, 9, 0⟩ :=
  ⟨rfl, by decide,
    (expand_strict_mono_and_head exDailyItem ⟨2025, 1, 1, 0, 0⟩ ⟨2025, 1, 3, 0, 0⟩
        ⟨2025, 1, 1, 9, 0⟩ rfl (by decide)).2 (by decide) (by decide)⟩

/-- C10: the expansion loop increments its instance counter on every
iteration, emitted or not; hence a recurring item whose due date is still
before window_start after 100 steps yields an empty expansion, however wide
the window is. -/
theorem expand_cap_counts_steps (item : Item) (s e due : DateTime)
    (hrep : item.repeat_interval ≠ "none") (hd : item.due_date = some due)
    (hv : ValidDT due)
    (hcap : iterStep item.repeat_interval due 100 < s) :
    generate_recurring_instances item s e = [] := by
  unfold generate_recurring_instances
  rw [if_neg hrep, hd]
  dsimp only
  apply genLoop_nil item s e 100 due 0 hv
  intro j hj
  exact DateTime.lt_of_le_of_lt
    (iterStep_mono item.repeat_interval hv (by omega : j ≤ 100)) hcap

set_option maxRecDepth 4000 in
theorem expand_cap_counts_steps_witness :
    generate_recurring_instances exOldDailyItem ⟨2021, 1, 1, 0, 0⟩
        ⟨2030, 1, 1, 0, 0⟩ = [] :=
  expand_cap_counts_steps exOldDailyItem ⟨2021, 1, 1, 0, 0⟩ ⟨2030, 1, 1, 0, 0⟩
    ⟨2020, 1, 1, 9, 0⟩ (by decide) rfl (by decide) (by decide)

/-!
## Claim theorems: bucketing and digest
-/

def exBucketNow : DateTime := ⟨2025, 9, 10, 8, 0⟩

/-- Pending task due 2025-10-01 (more than 7 days after 2025-09-10). -/
def exFarItem : Item :=
  { id := "4", type := "task", name := "far", due_date := some ⟨2025, 10, 1, 9, 0⟩,
    status := "pending", mention := "", repeat_interval := "none",
    priority := "Low", notes := "" }

/-- Pending task whose due date failed to parse. -/
def exUnparseableItem : Item :=
  { id := "6", type := "task", name := "bad", due_date := none,
    status := "pending", mention := "", repeat_interval := "none",
    priority := "Low", notes := "" }

/-- C3 (amended): the bucketing loop sorts each pending item into at most one
of THREE lists — overdue, due-today, upcoming — and into exactly one iff its
classification is not `dropped`; items due more than 7 days out are dropped
(appended to no list, there is no fourth `other` bucket), and an item whose
due date fails to parse is appended to the UPCOMING list. -/
theorem bucket_partition_three_way (today : DateTime) (pending : List Item)
    (i : Item) :
    ((i ∈ (bucketize today pending).1 ∨ i ∈ (bucketize today pending).2.1 ∨
        i ∈ (bucketize today pending).2.2) ↔
      (i ∈ pending ∧ classify today i ≠ Bucket.dropped)) ∧
    ¬ (i ∈ (bucketize today pending).1 ∧ i ∈ (bucketize today pending).2.1) ∧
    ¬ (i ∈ (bucketize today pending).1 ∧ i ∈ (bucketize today pending).2.2) ∧
    ¬ (i ∈ (bucketize today pending).2.1 ∧ i ∈ (bucketize today pending).2.2) ∧
    (i.due_date = none → classify today i = Bucket.upcoming) := by
  refine ⟨?_, ?_, ?_, ?_, ?_⟩
  · simp only [bucketize, List.mem_filter, decide_eq_true_eq]
    cases h : classify today i <;> simp [h]
  · simp only [bucketize, List.mem_filter, decide_eq_true_eq]
    rintro ⟨⟨_, h1⟩, ⟨_, h2⟩⟩
    rw [h1] at h2
    cases h2
  · simp only [bucketize, List.mem_filter, decide_eq_true_eq]
    rintro ⟨⟨_, h1⟩, ⟨_, h2⟩⟩
    rw [h1] at h2
    cases h2
  · simp only [bucketize, List.mem_filter, decide_eq_true_eq]
    rintro ⟨⟨_, h1⟩, ⟨_, h2⟩⟩
    rw [h1] at h2
    cases h2
  · intro h
    simp [classify, h]

/-- C3 counterexample: at now = 2025-09-10, the pending item due 2025-10-01
lands in NO bucket (the three lists are [], [], [exUnparseableItem]) — the
partition is not exhaustive and there is no `other` bucket — and the
unparseable-date item lands in `upcoming`, not in `other`. -/
theorem bucket_partition_cex :
    (bucketize exBucketNow [exFarItem, exUnparseableItem]).1 = [] ∧
    (bucketize exBucketNow [exFarItem, exUnparseableItem]).2.1 = [] ∧
    (bucketize exBucketNow [exFarItem, exUnparseableItem]).2.2 =
      [exUnparseableItem] ∧
    classify exBucketNow exFarItem = Bucket.dropped ∧
    classify exBucketNow exUnparseableItem = Bucket.upcoming := by
  decide

theorem bucket_partition_three_way_witness :
    classify exBucketNow exUnparseableItem = Bucket.upcoming :=
  (bucket_partition_three_way exBucketNow [exUnparseableItem]
    exUnparseableItem).2.2.2.2 rfl

def mkOverdueItem (i : String) (k : String) : Item :=
  { id := i, type := k, name := "x" ++ i, due_date := some ⟨2025, 9, 1, 9, 0⟩,
    status := "pending", mention := "", repeat_interval := "none",
    priority := "High", notes := "" }

def exC8Tasks : List Item :=
  [mkOverdueItem "1" "task", mkOverdueItem "2" "task", mkOverdueItem "3" "task"]

def exC8Events : List Item :=
  [mkOverdueItem "4" "event", mkOverdueItem "5" "event", mkOverdueItem "6" "event"]

/-- C8 (amended): each digest bucket field shows at most 5 TASKS and at most
5 EVENTS (so up to 10 item lines per bucket, not 5 items total), no overflow
note is produced, and the digest always ends with the summary field carrying
the three counts: total pending, total overdue, due today. -/
theorem digest_caps_and_summary (pt pe : List Item) (today : DateTime) :
    (overdueLines (bucketize today pt).1 (bucketize today pe).1).length =
        min 5 (bucketize today pt).1.length + min 5 (bucketize today pe).1.length ∧
    (todayLines (bucketize today pt).2.1 (bucketize today pe).2.1).length =
        min 5 (bucketize today pt).2.1.length +
          min 5 (bucketize today pe).2.1.length ∧
    (upcomingLines (bucketize today pt).2.2 (bucketize today pe).2.2).length =
        min 5 (bucketize today pt).2.2.length +
          min 5 (bucketize today pe).2.2.length ∧
    (composeDigestFields pt pe today).getLast? = some
      ⟨"📊 Summary",
        "Total Pending: " ++ toString (pt.length + pe.length) ++
          "\nOverdue: " ++
            toString ((bucketize today pt).1.length + (bucketize today pe).1.length) ++
          "\nDue Today: " ++
            toString ((bucketize today pt).2.1.length +
              (bucketize today pe).2.1.length)⟩ := by
  refine ⟨?_, ?_, ?_, ?_⟩
  · simp [overdueLines, List.length_take]
  · simp [todayLines, List.length_take]
  · simp [upcomingLines, List.length_take]
  · simp only [composeDigestFields]
    rw [List.getLast?_concat]

/-- C8 counterexample: with 3 overdue tasks and 3 overdue events, the OVERDUE
field of the digest is built from 6 item lines — more than the
5-item-per-bucket cap the claim states (the code caps tasks and events
separately at 5 each) — and the digest consists of just that field plus the
summary: no overflow note is produced anywhere. -/
theorem digest_cap_cex :
    (overdueLines (bucketize exBucketNow exC8Tasks).1
        (bucketize exBucketNow exC8Events).1).length = 6 ∧
    ¬ (6 ≤ 5) ∧
    (composeDigestFields exC8Tasks exC8Events exBucketNow).length = 2 := by
  refine ⟨by decide, by decide, ?_⟩
  decide

/-!
## Claim theorems: reminder planning and reconcile
-/

def exPlanNow : DateTime := ⟨2025, 9, 7, 13, 0⟩

/-- The spec scenario item: due 2025-09-07T14:00, repeat=none, pending. -/
def exPlanItem : Item :=
  { id := "9", type := "task", name := "s", due_date := some ⟨2025, 9, 7, 14, 0⟩,
    status := "pending", mention := "", repeat_interval := "none",
    priority := "Medium", notes := "" }

/-- A non-pending (completed) item sitting between two plannable ones. -/
def exDoneItem : Item :=
  { id := "8", type := "task", name := "done", due_date := some ⟨2025, 9, 7, 14, 0⟩,
    status := "completed", mention := "", repeat_interval := "none",
    priority := "Low", notes := "" }

/-- Second plannable item, due 2025-09-08T10:00. -/
def exPlanItem2 : Item :=
  { id := "10", type := "event", name := "t", due_date := some ⟨2025, 9, 8, 10, 0⟩,
    status := "pending", mention := "", repeat_interval := "none",
    priority := "High", notes := "" }

/-- C5: for every pending item with a parseable due date, the planner's fire
time is due_at minus 30 minutes, and the item is planned iff
now <= fire_at <= now + 30 days. -/
theorem planner_fire_at_window (now : DateTime) (i : Item) (due : DateTime)
    (hst : i.status = "pending") (hd : i.due_date = some due) :
    ((∃ j, planReminderForItem now i = some j) ↔
      (now ≤ due.subMinutes30 ∧ due.subMinutes30 ≤ now.addDays 30)) ∧
    ∀ j, planReminderForItem now i = some j → j.fire_at = due.subMinutes30 := by
  unfold planReminderForItem
  rw [if_neg (by simp [hst]), hd]
  dsimp only
  split_ifs with hw
  · refine ⟨⟨fun _ => hw, fun _ => ⟨_, rfl⟩⟩, ?_⟩
    intro j hj
    rw [Option.some.injEq] at hj
    subst hj
    rfl
  · refine ⟨⟨?_, fun hcontra => absurd hcontra hw⟩, ?_⟩
    · rintro ⟨j, hj⟩
      cases hj
    · intro j hj
      cases hj

set_option maxRecDepth 4000 in
/-- C5 scenario witness: due 2025-09-07T14:00 at now = 2025-09-07T13:00 is
planned with fire_at 2025-09-07T13:30. -/
theorem planner_fire_at_window_witness :
    ∃ j, planReminderForItem exPlanNow exPlanItem = some j ∧
      j.fire_at = (⟨2025, 9, 7, 13, 30⟩ : DateTime) := by
  obtain ⟨j, hj⟩ :=
    (planner_fire_at_window exPlanNow exPlanItem ⟨2025, 9, 7, 14, 0⟩ rfl rfl).1.mpr
      (by decide)
  refine ⟨j, hj, ?_⟩
  rw [(planner_fire_at_window exPlanNow exPlanItem ⟨2025, 9, 7, 14, 0⟩ rfl rfl).2
      j hj]
  decide

/-- C9: an item that is non-pending, has an unparseable due date, or whose
fire time falls outside the look-ahead window contributes nothing to the
plan (no error is modelled or needed — planning is total), and its presence
in the batch leaves the plan of the remaining items unchanged. -/
theorem planner_excludes_bad_items (now : DateTime) (pre post : List Item)
    (i : Item)
    (hexcl : i.status ≠ "pending" ∨ i.due_date = none ∨
      ∀ due, i.due_date = some due →
        ¬ (now ≤ due.subMinutes30 ∧ due.subMinutes30 ≤ now.addDays 30)) :
    planReminderForItem now i = none ∧
    plan_reminders (pre ++ i :: post) now =
      plan_reminders pre now ++ plan_reminders post now := by
  have hnone : planReminderForItem now i = none := by
    unfold planReminderForItem
    rcases hexcl with h | h | h
    · rw [if_pos h]
    · split_ifs with hs
      · rfl
      · rw [h]
    · split_ifs with hs
      · rfl
      · cases hdd : i.due_date with
        | none => rfl
        | some due =>
          dsimp only
          rw [if_neg (h due hdd)]
  refine ⟨hnone, ?_⟩
  unfold plan_reminders
  simp [List.filterMap_append, hnone]

set_option maxRecDepth 4000 in
theorem planner_excludes_bad_items_witness :
    plan_reminders [exPlanItem, exDoneItem, exPlanItem2] exPlanNow =
      plan_reminders [exPlanItem] exPlanNow ++
        plan_reminders [exPlanItem2] exPlanNow ∧
    (plan_reminders [exPlanItem, exDoneItem, exPlanItem2] exPlanNow).length = 2 :=
  ⟨(planner_excludes_bad_items exPlanNow [exPlanItem] [exPlanItem2] exDoneItem
      (Or.inl (by decide))).2,
    by decide⟩

/-- C1 (amended): the reconcile pass clears EVERY live `reminder_`-prefixed
job and re-creates one job per planned reminder; jobs present in both the
live set and the plan are therefore cancelled and re-created, not left
untouched.  The operation is idempotent only at the level of the resulting
job table: a second call with the same plan yields an identical table, while
still reporting one cancellation and one creation per planned job. -/
theorem reconcile_idempotent_on_table (table : List ScheduledJob)
    (plan : List PlannedJob)
    (hpre : ∀ p ∈ plan, strStartsWith (toScheduledJob p).id "reminder_" = true) :
    (reconcileJobs (reconcileJobs table plan).2.2 plan).2.2 =
      (reconcileJobs table plan).2.2 ∧
    (reconcileJobs (reconcileJobs table plan).2.2 plan).1 =
      (plan.map toScheduledJob).map (fun j => j.id) := by
  have hadd : ∀ j ∈ plan.map toScheduledJob, strStartsWith j.id "reminder_" = true := by
    intro j hj
    obtain ⟨p, hp, rfl⟩ := List.mem_map.mp hj
    exact hpre p hp
  unfold reconcileJobs
  dsimp only
  rw [List.filter_append, List.filter_append]
  have hkept_not : ∀ j ∈ table.filter (fun j => ! strStartsWith j.id "reminder_"),
      (! strStartsWith j.id "reminder_") = true := by
    intro j hj
    exact (List.mem_filter.mp hj).2
  have h1 : (table.filter (fun j => ! strStartsWith j.id "reminder_")).filter
      (fun j => ! strStartsWith j.id "reminder_") =
      table.filter (fun j => ! strStartsWith j.id "reminder_") :=
    List.filter_eq_self.mpr hkept_not
  have h2 : (plan.map toScheduledJob).filter
      (fun j => ! strStartsWith j.id "reminder_") = [] := by
    rw [List.filter_eq_nil_iff]
    intro j hj
    rw [hadd j hj]
    simp
  have h3 : (table.filter (fun j => ! strStartsWith j.id "reminder_")).filter
      (fun j => strStartsWith j.id "reminder_") = [] := by
    rw [List.filter_eq_nil_iff]
    intro j hj
    have := (List.mem_filter.mp hj).2
    simp at this
    simp [this]
  have h4 : (plan.map toScheduledJob).filter
      (fun j => strStartsWith j.id "reminder_") = plan.map toScheduledJob :=
    List.filter_eq_self.mpr hadd
  rw [h1, h2, h3, h4]
  simp

set_option maxRecDepth 4000 in
theorem reconcile_idempotent_on_table_witness :
    (reconcileJobs
        (reconcileJobs [] (plan_reminders [exPlanItem] exPlanNow)).2.2
        (plan_reminders [exPlanItem] exPlanNow)).2.2 =
      (reconcileJobs [] (plan_reminders [exPlanItem] exPlanNow)).2.2 :=
  (reconcile_idempotent_on_table [] (plan_reminders [exPlanItem] exPlanNow)
    (by decide)).1

set_option maxRecDepth 4000 in
/-- C1 counterexample: with a live table produced by a first reconcile of a
one-job plan, a second reconcile with the SAME plan cancels one job and
creates one job (while the claim states the second call performs no
cancellations and no creations); the matching job is cancelled and
re-created rather than left untouched. -/
theorem reconcile_second_call_cex :
    ((reconcileJobs
        (reconcileJobs [] (plan_reminders [exPlanItem] exPlanNow)).2.2
        (plan_reminders [exPlanItem] exPlanNow)).1).length = 1 ∧
    ((reconcileJobs
        (reconcileJobs [] (plan_reminders [exPlanItem] exPlanNow)).2.2
        (plan_reminders [exPlanItem] exPlanNow)).2.1).length = 1 ∧
    ((reconcileJobs [] (plan_reminders [exPlanItem] exPlanNow)).2.2).map
        (fun j => j.id) =
      (plan_reminders [exPlanItem] exPlanNow).map (fun p => p.job_id) := by
  decide
